import Mathlib

/-!
Verification of the AirCodum screen-capture and dispatch pipeline
(`src/extension/src/websockets.ts`).

The TypeScript class `ScreenCaptureManager` is embedded as a state
record `ManagerState` together with pure state-transition functions,
one per method.  Machine numbers (`number` in JS) are modelled as `Rat`
where fractional values can occur (quality settings, timestamps from
performance.now, processing times) and as `Nat` for counters and
Date.now timestamps.  Byte buffers are `List Nat`.

External collaborators are kept at their interface boundary:
the JPEG encoder (jimp) is an abstract function argument, the MD5
digest of the 32-byte sample vector is modelled by the sample vector
itself (equal inputs give equal digests, which is the only property
the code relies on; MD5 is an external library primitive), and
screenshot results are explicit arguments of the tick step.
-/

/-- Byte buffer (Node `Buffer`), one `Nat` per byte. -/
abbrev Frame : Type := List Nat

/-- `interface VNCQualitySettings` from websockets.ts. -/
structure VNCQualitySettings where
  width : Rat
  jpegQuality : Rat
  fps : Rat
  deriving DecidableEq, Repr

/-- Host screen size, read once from robotjs (`robot.getScreenSize()`). -/
structure ScreenSize where
  width : Rat
  height : Rat
  deriving DecidableEq, Repr

/-- Derived dimensions cached by the manager. -/
structure Dimensions where
  width : Rat
  height : Int
  deriving DecidableEq, Repr

/-- Quality-control constants of `ScreenCaptureManager` (websockets.ts
lines 50-64). -/
def MIN_QUALITY : Rat := 80
def MAX_QUALITY : Rat := 90
def MIN_WIDTH : Rat := 1024
def MAX_WIDTH : Rat := 1920
def MIN_FRAME_INTERVAL : Rat := 33
def COALESCE_MAX_WAIT : Rat := 100
def PERFORMANCE_CHECK_INTERVAL : Nat := 2000

/-- The mutable fields of `ScreenCaptureManager`.  Timer handles
(`NodeJS.Timeout`) are modelled by whether a timer is armed.
`tickTimerArmed` records whether a `setTimeout(captureFrame, _)`
scheduled by the recursive capture chain is pending; the code never
stores that handle anywhere (the `captureInterval` field is declared
and cleared but never assigned in this revision). -/
structure ManagerState where
  isCapturing : Bool
  captureInterval : Option Unit
  quality : VNCQualitySettings
  processingFrame : Bool
  lastFrameHash : Option (List Nat)
  lastFrameSentTime : Rat
  lastFrameSize : Nat
  pendingFrames : List Frame
  coalesceTimer : Bool
  tickTimerArmed : Bool
  frameProcessingTimes : List Rat
  lastPerformanceCheck : Nat
  droppedFrames : Nat
  framesSent : Nat
  subscribers : List Nat
  screenSize : ScreenSize
  cachedDimensions : Dimensions
  deriving DecidableEq, Repr

/-- `getScaledDimensions`: height is derived from the target width and
the host aspect ratio, `Math.floor(width * (realHeight / realWidth))`. -/
def getScaledDimensions (q : VNCQualitySettings) (screen : ScreenSize) : Dimensions :=
  { width := q.width, height := ⌊q.width * (screen.height / screen.width)⌋ }

/-- Initial state of the manager: websockets.ts lines 31-68.
`t0` is the construction-time `Date.now()`. -/
def initialState (t0 : Nat) (screen : ScreenSize) : ManagerState :=
  { isCapturing := false
    captureInterval := none
    quality := { width := 1440, jpegQuality := 85, fps := 45 }
    processingFrame := false
    lastFrameHash := none
    lastFrameSentTime := 0
    lastFrameSize := 0
    pendingFrames := []
    coalesceTimer := false
    tickTimerArmed := false
    frameProcessingTimes := []
    lastPerformanceCheck := t0
    droppedFrames := 0
    framesSent := 0
    subscribers := []
    screenSize := screen
    cachedDimensions := getScaledDimensions { width := 1440, jpegQuality := 85, fps := 45 } screen }

/-- `calculateFrameHash` (websockets.ts lines 149-160): sample 32
evenly spaced bytes; `step = floor(len / 32)`, `offset = floor(step / 2)`,
`samples[i] = buffer[offset + i * step]`.  An out-of-range JS Buffer
read yields `undefined`, which the `Uint8Array` store coerces to `0`,
hence `getD _ 0`.  The MD5 hex digest of the sample vector is modelled
by the sample vector itself. -/
def calculateFrameHash (buffer : Frame) : List Nat :=
  let step := List.length buffer / 32
  let offset := step / 2
  (List.range 32).map (fun i => List.getD buffer (offset + i * step) 0)

/-- `handleNewFrame` (websockets.ts lines 162-178): drop the frame as a
duplicate when its hash equals the previous one, otherwise record the
hash, push the frame onto `pendingFrames`, and arm the coalescing
timer when none is armed. -/
def handleNewFrame (frame : Frame) (s : ManagerState) : ManagerState :=
  let frameHash := calculateFrameHash frame
  if some frameHash = s.lastFrameHash then
    { s with droppedFrames := s.droppedFrames + 1 }
  else
    let s := { s with lastFrameHash := some frameHash,
                      pendingFrames := s.pendingFrames ++ [frame] }
    if s.coalesceTimer then s else { s with coalesceTimer := true }

/-- `getAverageProcessingTime` (websockets.ts lines 267-273). -/
def getAverageProcessingTime (s : ManagerState) : Rat :=
  if s.frameProcessingTimes = [] then 0
  else s.frameProcessingTimes.sum / s.frameProcessingTimes.length

/-- `updatePerformanceMetrics` (websockets.ts lines 248-253): push the
new duration and keep at most the last 30 samples. -/
def updatePerformanceMetrics (t : Rat) (s : ManagerState) : ManagerState :=
  let times := s.frameProcessingTimes ++ [t]
  { s with frameProcessingTimes := if times.length > 30 then times.tail else times }

/-- Drop rate `droppedFrames / (droppedFrames + framesSent)`.  In JS
this is a float and `0 / 0` is NaN; `none` models NaN, and every
comparison against `none` is false, exactly like NaN comparisons. -/
def dropRateOf (s : ManagerState) : Option Rat :=
  if s.droppedFrames + s.framesSent = 0 then none
  else some ((s.droppedFrames : Rat) / ((s.droppedFrames : Rat) + (s.framesSent : Rat)))

/-- `adjustQualityIfNeeded` (websockets.ts lines 275-308): at most once
per `PERFORMANCE_CHECK_INTERVAL`, degrade quality and width (clamped to
their minimums) when the drop rate exceeds 0.2 or the average
processing time exceeds `MIN_FRAME_INTERVAL`; improve them (clamped to
their maximums) when the drop rate is below 0.05 and the average
processing time is below half of `MIN_FRAME_INTERVAL`. -/
def adjustQualityIfNeeded (nowDate : Nat) (s : ManagerState) : ManagerState :=
  if nowDate - s.lastPerformanceCheck < PERFORMANCE_CHECK_INTERVAL then s
  else
    let avgProcessingTime := getAverageProcessingTime s
    let dropRate := dropRateOf s
    let degrade :=
      (match dropRate with
       | none => false
       | some r => decide (r > (0.2 : Rat))) || decide (avgProcessingTime > MIN_FRAME_INTERVAL)
    let improve :=
      (match dropRate with
       | none => false
       | some r => decide (r < (0.05 : Rat))) && decide (avgProcessingTime < MIN_FRAME_INTERVAL * (0.5 : Rat))
    let s :=
      if degrade then
        let q := { s.quality with
                   jpegQuality := max MIN_QUALITY (s.quality.jpegQuality - 5),
                   width := max MIN_WIDTH (s.quality.width - 128) }
        { s with quality := q, cachedDimensions := getScaledDimensions q s.screenSize }
      else if improve then
        let q := { s.quality with
                   jpegQuality := min MAX_QUALITY (s.quality.jpegQuality + 1),
                   width := min MAX_WIDTH (s.quality.width + 64) }
        { s with quality := q, cachedDimensions := getScaledDimensions q s.screenSize }
      else s
    { s with lastPerformanceCheck := nowDate }

/-- `processCoalescedFrames` (websockets.ts lines 180-216), success
path: take the most recent pending frame, discard the rest, encode it
and publish it to every subscriber.  `encode` abstracts the jimp
resize-and-JPEG pipeline of `processFrame`; `tProc` is the measured
processing duration, `nowDate` the `Date.now()` seen by
`adjustQualityIfNeeded` and `nowPerf` the `performance.now()` stored in
`lastFrameSentTime`.  The second component is the list of publish
broadcasts performed (each one reaching every subscriber).  The
`finally` block only re-arms the coalescing timer when frames arrived
during processing; within this sequential step `pendingFrames` is
empty at that point, so no re-arm happens. -/
def processCoalescedFrames (encode : Frame → Frame) (tProc : Rat) (nowDate : Nat)
    (nowPerf : Rat) (s : ManagerState) : ManagerState × List Frame :=
  if s.pendingFrames = [] ∨ s.processingFrame then (s, [])
  else
    let frame := s.pendingFrames.getLastD []
    let s := { s with processingFrame := true, coalesceTimer := false, pendingFrames := [] }
    let processedFrame := encode frame
    let s := updatePerformanceMetrics tProc s
    let s := adjustQualityIfNeeded nowDate s
    let s := { s with framesSent := s.framesSent + 1,
                      lastFrameSentTime := nowPerf,
                      lastFrameSize := processedFrame.length,
                      processingFrame := false }
    (s, [processedFrame])

/-- `resetPerformanceMetrics` (websockets.ts lines 350-355). -/
def resetPerformanceMetrics (nowDate : Nat) (s : ManagerState) : ManagerState :=
  { s with frameProcessingTimes := [], lastPerformanceCheck := nowDate,
           droppedFrames := 0, framesSent := 0 }

/-- An inbound `quality-update` message: each field optional. -/
structure QualityUpdate where
  width : Option Rat := none
  jpegQuality : Option Rat := none
  fps : Option Rat := none

/-- First guarded block of `updateQualitySettings` (websockets.ts
lines 320-327): accept the width only when present, within
`[MIN_WIDTH, MAX_WIDTH]` and different from the current width; an
accepted width recomputes the cached dimensions.  The `Bool` is this
block's contribution to the `changed` flag. -/
def applyWidthField (u : QualityUpdate) (s : ManagerState) : ManagerState × Bool :=
  match u.width with
  | none => (s, false)
  | some w =>
    if MIN_WIDTH ≤ w ∧ w ≤ MAX_WIDTH ∧ w ≠ s.quality.width then
      let q := { s.quality with width := w }
      ({ s with quality := q, cachedDimensions := getScaledDimensions q s.screenSize }, true)
    else (s, false)

/-- Second guarded block of `updateQualitySettings` (websockets.ts
lines 329-335): accept the jpeg quality only when present, within
`[MIN_QUALITY, MAX_QUALITY]` and different from the current value. -/
def applyJpegField (u : QualityUpdate) (s : ManagerState) : ManagerState × Bool :=
  match u.jpegQuality with
  | none => (s, false)
  | some j =>
    if MIN_QUALITY ≤ j ∧ j ≤ MAX_QUALITY ∧ j ≠ s.quality.jpegQuality then
      ({ s with quality := { s.quality with jpegQuality := j } }, true)
    else (s, false)

/-- Third guarded block of `updateQualitySettings` (websockets.ts
lines 337-343): accept the fps only when present, within `[1, 60]` and
different from the current value. -/
def applyFpsField (u : QualityUpdate) (s : ManagerState) : ManagerState × Bool :=
  match u.fps with
  | none => (s, false)
  | some f =>
    if (1 : Rat) ≤ f ∧ f ≤ 60 ∧ f ≠ s.quality.fps then
      ({ s with quality := { s.quality with fps := f } }, true)
    else (s, false)

/-- `updateQualitySettings` (websockets.ts lines 317-348): the three
guarded per-field blocks in source order; any accepted field resets
the performance metrics. -/
def updateQualitySettings (nowDate : Nat) (u : QualityUpdate) (s : ManagerState) : ManagerState :=
  let p1 := applyWidthField u s
  let p2 := applyJpegField u p1.1
  let p3 := applyFpsField u p2.1
  if p1.2 || p2.2 || p3.2 then resetPerformanceMetrics nowDate p3.1 else p3.1

/-- `stopCaptureLoop` (websockets.ts lines 357-370): clear the
`captureInterval` handle if one is set (in this revision it never is —
`startCaptureLoop` uses a recursive `setTimeout` chain and never
assigns the field), cancel the coalescing timer, clear the capturing
flag, the last hash and the pending frames, and reset the metrics.
The pending capture-tick timeout (`tickTimerArmed`) is not touched:
its handle is not stored anywhere. -/
def stopCaptureLoop (nowDate : Nat) (s : ManagerState) : ManagerState :=
  let s := match s.captureInterval with
    | some _ => { s with captureInterval := none }
    | none => s
  let s := if s.coalesceTimer then { s with coalesceTimer := false } else s
  let s := { s with isCapturing := false, lastFrameHash := none, pendingFrames := [] }
  resetPerformanceMetrics nowDate s

/-- `startCaptureLoop` (websockets.ts lines 115-147): guard against a
second start and set the capturing flag.  The immediate asynchronous
invocation of `captureFrame()` is modelled as a separate `captureTick`
step in traces. -/
def startCaptureLoop (s : ManagerState) : ManagerState :=
  if s.isCapturing then s else { s with isCapturing := true }

/-- One invocation of the `captureFrame` tick closure (websockets.ts
lines 119-144).  Entering the tick consumes the timeout that fired.
When capturing has been turned off, or a frame is mid-processing, or
less than `MIN_FRAME_INTERVAL` has elapsed since the last frame was
sent, the tick returns early — note that the early returns skip the
`setTimeout` at the end, so no next tick is scheduled on those paths.
`raw` is the screenshot result, `none` when the capture threw (the
catch logs and the tick still schedules the next capture). -/
def captureTick (raw : Option Frame) (nowPerf : Rat) (s : ManagerState) : ManagerState :=
  let s := { s with tickTimerArmed := false }
  if ¬s.isCapturing then s
  else
    let timeSinceLastFrame := nowPerf - s.lastFrameSentTime
    if s.processingFrame ∨ timeSinceLastFrame < MIN_FRAME_INTERVAL then
      { s with droppedFrames := s.droppedFrames + 1 }
    else
      let s := match raw with
        | some frame => handleNewFrame frame s
        | none => s
      { s with tickTimerArmed := true }

/-- `subscribe` (websockets.ts lines 100-113): append the callback
(identified by reference, modelled as a `Nat` id) and start the
capture loop when idle. -/
def subscribe (cb : Nat) (s : ManagerState) : ManagerState :=
  let s := { s with subscribers := s.subscribers ++ [cb] }
  if ¬s.isCapturing then startCaptureLoop s else s

/-- The unsubscribe closure returned by `subscribe` (websockets.ts
lines 107-112): filter the callback out and stop the loop when the
subscriber list becomes empty.  `nowDate` is the `Date.now()` observed
by the metrics reset inside `stopCaptureLoop`. -/
def unsubscribe (cb : Nat) (nowDate : Nat) (s : ManagerState) : ManagerState :=
  let s := { s with subscribers := s.subscribers.filter (fun c => c ≠ cb) }
  if s.subscribers = [] then stopCaptureLoop nowDate s else s

/-- Actions forwarded to the robotjs input injector. -/
inductive RobotAction where
  | moveMouse (x y : Int)
  | mouseToggle (dir button : String)
  deriving DecidableEq, Repr

/-- `VSCodeVNCConnection.handleMouseEvent` (websockets.ts lines
498-522): scale client coordinates to the host screen with
`Math.floor((coord / clientDim) * hostDim)`, always move the pointer,
and additionally toggle the left button on "down"/"up"; "move" (or any
other event type) performs only the move. -/
def handleMouseEvent (screen : ScreenSize) (x y : Rat) (eventType : String)
    (screenWidth screenHeight : Rat) : List RobotAction :=
  let actualX := ⌊(x / screenWidth) * screen.width⌋
  let actualY := ⌊(y / screenHeight) * screen.height⌋
  RobotAction.moveMouse actualX actualY ::
    (if eventType = "down" then [RobotAction.mouseToggle "down" "left"]
     else if eventType = "up" then [RobotAction.mouseToggle "up" "left"]
     else [])

/-- JS `String.prototype.toLowerCase`, stated structurally over the
character list (identical to ASCII lowercasing, which is all the
command registry and phrases use). -/
def toLowerString (s : String) : String := String.mk (s.data.map Char.toLower)

/-- JS `String.prototype.startsWith`, stated structurally over the
character list. -/
def startsWithString (s p : String) : Bool := p.data.isPrefixOf s.data

/-- The fixed natural-language command phrases of `isSupportedCommand`
(websockets.ts lines 542-550). -/
def commandPhrases : List String :=
  ["type ", "keytap ", "go to line", "open file", "search", "replace", "@cline"]

/-- `VSCodeVNCConnection.isSupportedCommand` (websockets.ts lines
537-552), parameterised by the keys of the external `Commands`
registry: case-insensitive exact match against a registry key, or
case-insensitive match of one of the fixed phrases at the start of the
text. -/
def isSupportedCommand (commandKeys : List String) (command : String) : Bool :=
  (commandKeys.map toLowerString).contains (toLowerString command) ||
    commandPhrases.any (fun p => startsWithString (toLowerString command) p)

/-- Where an inbound binary payload is routed. -/
inductive BufferRoute where
  | commandExecution
  | fileUpload
  deriving DecidableEq, Repr

/-- The fallthrough of `handleBufferMessage` (websockets.ts lines
406-437) for a payload that does not parse as a recognised JSON
message type (`default` case and the `catch` branch are identical):
route to the external command executor when `isSupportedCommand`
accepts the text, otherwise hand the raw bytes to the file-upload
handler. -/
def handleUnrecognizedPayload (commandKeys : List String) (messageData : String) : BufferRoute :=
  if isSupportedCommand commandKeys messageData then BufferRoute.commandExecution
  else BufferRoute.fileUpload

/-- The default quality settings (websockets.ts lines 35-39). -/
def defaultQuality : VNCQualitySettings := { width := 1440, jpegQuality := 85, fps := 45 }

/-- Concrete scenario state: the manager right after the first
subscriber (callback id 7) arrived on a 1920 x 1080 host — capture
active, no frame seen yet.  Equals `subscribe 7 (initialState 0 _)`,
proved below. -/
def startedState : ManagerState :=
  { isCapturing := true
    captureInterval := none
    quality := defaultQuality
    processingFrame := false
    lastFrameHash := none
    lastFrameSentTime := 0
    lastFrameSize := 0
    pendingFrames := []
    coalesceTimer := false
    tickTimerArmed := false
    frameProcessingTimes := []
    lastPerformanceCheck := 0
    droppedFrames := 0
    framesSent := 0
    subscribers := [7]
    screenSize := ⟨1920, 1080⟩
    cachedDimensions := ⟨1440, 810⟩ }

/-- Concrete scenario state: capturing, with one 40 ms processing
sample recorded and an adjustment due (for the adaptive-quality
witness). -/
def degradeState : ManagerState :=
  { startedState with frameProcessingTimes := [40] }

/-- Concrete scenario state: capturing with the hash of the one-byte
frame `[7]` recorded as the previous frame hash. -/
def seenState : ManagerState :=
  { startedState with lastFrameHash := some (List.replicate 32 7) }

/-- Concrete scenario state: capturing, with two frames pending behind
an armed coalescing timer (the state reached from `startedState` after
`handleNewFrame [0]` and `handleNewFrame [1]`). -/
def pendingState : ManagerState :=
  { startedState with
    pendingFrames := [[0], [1]]
    coalesceTimer := true
    lastFrameHash := some (List.replicate 32 1) }

/-- Concrete scenario state: `startedState` after one successful
capture tick at t = 100 ms — one frame pending, coalescing timer
armed, and the next capture tick scheduled. -/
def tickedState : ManagerState :=
  { startedState with
    lastFrameHash := some (List.replicate 32 0)
    pendingFrames := [[0]]
    coalesceTimer := true
    tickTimerArmed := true }

/-! ## Reachability of the concrete scenario states -/

theorem startedState_reachable : subscribe 7 (initialState 0 ⟨1920, 1080⟩) = startedState := by
  norm_num [subscribe, startCaptureLoop, initialState, startedState, defaultQuality,
    getScaledDimensions]

/-! ## Helper lemmas: quality-update field blocks -/

theorem applyWidthField_quality (u : QualityUpdate) (s : ManagerState) :
    (applyWidthField u s).1.quality.jpegQuality = s.quality.jpegQuality ∧
    (applyWidthField u s).1.quality.fps = s.quality.fps := by
  unfold applyWidthField
  cases u.width
  · simp
  · dsimp only
    split <;> simp

theorem applyJpegField_quality (u : QualityUpdate) (s : ManagerState) :
    (applyJpegField u s).1.quality.width = s.quality.width ∧
    (applyJpegField u s).1.quality.fps = s.quality.fps := by
  unfold applyJpegField
  cases u.jpegQuality
  · simp
  · dsimp only
    split <;> simp

theorem applyFpsField_quality (u : QualityUpdate) (s : ManagerState) :
    (applyFpsField u s).1.quality.width = s.quality.width ∧
    (applyFpsField u s).1.quality.jpegQuality = s.quality.jpegQuality := by
  unfold applyFpsField
  cases u.fps
  · simp
  · dsimp only
    split <;> simp

theorem applyWidthField_width (u : QualityUpdate) (s : ManagerState) :
    ((u.width = none → (applyWidthField u s).1.quality.width = s.quality.width) ∧
     (∀ v, u.width = some v → ¬(MIN_WIDTH ≤ v ∧ v ≤ MAX_WIDTH) →
        (applyWidthField u s).1.quality.width = s.quality.width) ∧
     (∀ v, u.width = some v → MIN_WIDTH ≤ v → v ≤ MAX_WIDTH →
        (applyWidthField u s).1.quality.width = v)) := by
  unfold applyWidthField
  cases h : u.width with
  | none => simp
  | some v =>
    dsimp only
    refine ⟨by simp, ?_, ?_⟩
    · intro w hw hbounds
      obtain rfl : v = w := by simpa using hw
      rw [if_neg]
      intro hc
      exact hbounds ⟨hc.1, hc.2.1⟩
    · intro w hw h1 h2
      obtain rfl : v = w := by simpa using hw
      by_cases he : v = s.quality.width
      · rw [if_neg]
        · exact he.symm
        · simp [he]
      · rw [if_pos ⟨h1, h2, he⟩]

theorem applyJpegField_jpeg (u : QualityUpdate) (s : ManagerState) :
    ((u.jpegQuality = none → (applyJpegField u s).1.quality.jpegQuality = s.quality.jpegQuality) ∧
     (∀ v, u.jpegQuality = some v → ¬(MIN_QUALITY ≤ v ∧ v ≤ MAX_QUALITY) →
        (applyJpegField u s).1.quality.jpegQuality = s.quality.jpegQuality) ∧
     (∀ v, u.jpegQuality = some v → MIN_QUALITY ≤ v → v ≤ MAX_QUALITY →
        (applyJpegField u s).1.quality.jpegQuality = v)) := by
  unfold applyJpegField
  cases h : u.jpegQuality with
  | none => simp
  | some v =>
    dsimp only
    refine ⟨by simp, ?_, ?_⟩
    · intro w hw hbounds
      obtain rfl : v = w := by simpa using hw
      rw [if_neg]
      intro hc
      exact hbounds ⟨hc.1, hc.2.1⟩
    · intro w hw h1 h2
      obtain rfl : v = w := by simpa using hw
      by_cases he : v = s.quality.jpegQuality
      · rw [if_neg]
        · exact he.symm
        · simp [he]
      · rw [if_pos ⟨h1, h2, he⟩]

theorem applyFpsField_fps (u : QualityUpdate) (s : ManagerState) :
    ((u.fps = none → (applyFpsField u s).1.quality.fps = s.quality.fps) ∧
     (∀ v, u.fps = some v → ¬((1 : Rat) ≤ v ∧ v ≤ 60) →
        (applyFpsField u s).1.quality.fps = s.quality.fps) ∧
     (∀ v, u.fps = some v → (1 : Rat) ≤ v → v ≤ 60 →
        (applyFpsField u s).1.quality.fps = v)) := by
  unfold applyFpsField
  cases h : u.fps with
  | none => simp
  | some v =>
    dsimp only
    refine ⟨by simp, ?_, ?_⟩
    · intro w hw hbounds
      obtain rfl : v = w := by simpa using hw
      rw [if_neg]
      intro hc
      exact hbounds ⟨hc.1, hc.2.1⟩
    · intro w hw h1 h2
      obtain rfl : v = w := by simpa using hw
      by_cases he : v = s.quality.fps
      · rw [if_neg]
        · exact he.symm
        · simp [he]
      · rw [if_pos ⟨h1, h2, he⟩]

theorem updateQualitySettings_proj (nowDate : Nat) (u : QualityUpdate) (s : ManagerState) :
    (updateQualitySettings nowDate u s).quality.width = (applyWidthField u s).1.quality.width ∧
    (updateQualitySettings nowDate u s).quality.jpegQuality =
      (applyJpegField u (applyWidthField u s).1).1.quality.jpegQuality ∧
    (updateQualitySettings nowDate u s).quality.fps =
      (applyFpsField u (applyJpegField u (applyWidthField u s).1).1).1.quality.fps := by
  have base :
      (updateQualitySettings nowDate u s).quality =
        (applyFpsField u (applyJpegField u (applyWidthField u s).1).1).1.quality := by
    unfold updateQualitySettings
    dsimp only
    split
    · simp [resetPerformanceMetrics]
    · rfl
  refine ⟨?_, ?_, by rw [base]⟩
  · rw [base, (applyFpsField_quality _ _).1, (applyJpegField_quality _ _).1]
  · rw [base, (applyFpsField_quality _ _).2]

/-- C1: for every quality-update request and every field (width,
jpegQuality, fps), a field that is absent or outside its configured
[MIN, MAX] bounds leaves the stored value of that field unchanged,
while every field that is present and within bounds ends up stored
(in particular a present, in-bounds value different from the current
one is applied); an update of fps = 1000 against bounds [1, 60] leaves
the stored fps at its prior value. -/
theorem C1_quality_update_bounds (nowDate : Nat) (u : QualityUpdate) (s : ManagerState) :
    ((u.width = none → (updateQualitySettings nowDate u s).quality.width = s.quality.width) ∧
     (∀ v, u.width = some v → ¬(MIN_WIDTH ≤ v ∧ v ≤ MAX_WIDTH) →
        (updateQualitySettings nowDate u s).quality.width = s.quality.width) ∧
     (∀ v, u.width = some v → MIN_WIDTH ≤ v → v ≤ MAX_WIDTH →
        (updateQualitySettings nowDate u s).quality.width = v)) ∧
    ((u.jpegQuality = none →
        (updateQualitySettings nowDate u s).quality.jpegQuality = s.quality.jpegQuality) ∧
     (∀ v, u.jpegQuality = some v → ¬(MIN_QUALITY ≤ v ∧ v ≤ MAX_QUALITY) →
        (updateQualitySettings nowDate u s).quality.jpegQuality = s.quality.jpegQuality) ∧
     (∀ v, u.jpegQuality = some v → MIN_QUALITY ≤ v → v ≤ MAX_QUALITY →
        (updateQualitySettings nowDate u s).quality.jpegQuality = v)) ∧
    ((u.fps = none → (updateQualitySettings nowDate u s).quality.fps = s.quality.fps) ∧
     (∀ v, u.fps = some v → ¬((1 : Rat) ≤ v ∧ v ≤ 60) →
        (updateQualitySettings nowDate u s).quality.fps = s.quality.fps) ∧
     (∀ v, u.fps = some v → (1 : Rat) ≤ v → v ≤ 60 →
        (updateQualitySettings nowDate u s).quality.fps = v)) ∧
    (u.fps = some 1000 → (updateQualitySettings nowDate u s).quality.fps = s.quality.fps) := by
  obtain ⟨pw, pj, pf⟩ := updateQualitySettings_proj nowDate u s
  have hwj := (applyWidthField_quality u s).1
  have hwf := (applyWidthField_quality u s).2
  have hjf := (applyJpegField_quality u (applyWidthField u s).1).2
  refine ⟨?_, ?_, ?_, ?_⟩
  · rw [pw]
    exact applyWidthField_width u s
  · rw [pj]
    obtain ⟨a, b, c⟩ := applyJpegField_jpeg u (applyWidthField u s).1
    rw [hwj] at a b
    exact ⟨a, b, c⟩
  · rw [pf]
    obtain ⟨a, b, c⟩ := applyFpsField_fps u (applyJpegField u (applyWidthField u s).1).1
    rw [hjf, hwf] at a b
    exact ⟨a, b, c⟩
  · intro h1000
    rw [pf]
    obtain ⟨a, b, c⟩ := applyFpsField_fps u (applyJpegField u (applyWidthField u s).1).1
    rw [hjf, hwf] at b
    refine b 1000 h1000 ?_
    rintro ⟨h1, h2⟩
    norm_num at h2

/-- Witness for C1: against the default settings (fps 45), an update
of fps = 1000 leaves the stored fps at 45, while an in-bounds update
of fps = 30 is applied. -/
theorem C1_quality_update_bounds_witness :
    (updateQualitySettings 5000 { width := none, jpegQuality := none, fps := some 1000 }
      startedState).quality.fps = 45 ∧
    (updateQualitySettings 5000 { width := none, jpegQuality := none, fps := some 30 }
      startedState).quality.fps = 30 := by
  constructor
  · have h :=
      (C1_quality_update_bounds 5000
        { width := none, jpegQuality := none, fps := some 1000 } startedState).2.2.2 rfl
    simpa [startedState, defaultQuality] using h
  · exact
      (C1_quality_update_bounds 5000
        { width := none, jpegQuality := none, fps := some 30 } startedState).2.2.1.2.2 30 rfl
        (by norm_num) (by norm_num)

/-! ## Helper lemmas: fields untouched by the processing pipeline -/

theorem updatePerformanceMetrics_transient (t : Rat) (s : ManagerState) :
    (updatePerformanceMetrics t s).pendingFrames = s.pendingFrames ∧
    (updatePerformanceMetrics t s).coalesceTimer = s.coalesceTimer ∧
    (updatePerformanceMetrics t s).lastFrameHash = s.lastFrameHash ∧
    (updatePerformanceMetrics t s).processingFrame = s.processingFrame ∧
    (updatePerformanceMetrics t s).droppedFrames = s.droppedFrames ∧
    (updatePerformanceMetrics t s).framesSent = s.framesSent := by
  unfold updatePerformanceMetrics
  exact ⟨rfl, rfl, rfl, rfl, rfl, rfl⟩

theorem adjustQualityIfNeeded_transient (n : Nat) (s : ManagerState) :
    (adjustQualityIfNeeded n s).pendingFrames = s.pendingFrames ∧
    (adjustQualityIfNeeded n s).coalesceTimer = s.coalesceTimer ∧
    (adjustQualityIfNeeded n s).lastFrameHash = s.lastFrameHash ∧
    (adjustQualityIfNeeded n s).processingFrame = s.processingFrame ∧
    (adjustQualityIfNeeded n s).droppedFrames = s.droppedFrames ∧
    (adjustQualityIfNeeded n s).framesSent = s.framesSent := by
  unfold adjustQualityIfNeeded
  split
  · simp
  · dsimp only
    split
    · simp
    · split <;> simp

/-- C2 counterexample: the claim says at most one pending frame is ever
retained while a coalescing wait is pending; but after two distinct
frames arrive during one armed coalescing wait, `pendingFrames` holds
both of them (`handleNewFrame` pushes, it does not replace). -/
theorem C2_counterexample :
    (handleNewFrame [0] startedState).coalesceTimer = true ∧
    (handleNewFrame [1] (handleNewFrame [0] startedState)).pendingFrames = [[0], [1]] ∧
    1 < (handleNewFrame [1] (handleNewFrame [0] startedState)).pendingFrames.length := by
  have h0 : calculateFrameHash [0] = List.replicate 32 0 := by decide
  have h1 : calculateFrameHash [1] = List.replicate 32 1 := by decide
  have e1 : handleNewFrame [0] startedState =
      { startedState with
        lastFrameHash := some (List.replicate 32 0)
        pendingFrames := [[0]]
        coalesceTimer := true } := by
    simp [handleNewFrame, h0, startedState]
  have e2 : handleNewFrame [1]
      ({ startedState with
         lastFrameHash := some (List.replicate 32 0)
         pendingFrames := [[0]]
         coalesceTimer := true }) = pendingState := by
    simp [handleNewFrame, h1, pendingState, startedState]
  rw [e1, e2]
  refine ⟨rfl, rfl, by norm_num [pendingState]⟩

/-- C2 (amended): a new non-duplicate frame arriving while a
coalescing wait is pending is appended to the pending list (so several
frames may be retained), and the coalesced processing step encodes and
publishes only the most recently arrived pending frame, discarding all
superseded frames and clearing the list — superseded frames are never
published. -/
theorem C2_amended_thm (s : ManagerState) (f : Frame) (encode : Frame → Frame)
    (tProc : Rat) (nowDate : Nat) (nowPerf : Rat) :
    (some (calculateFrameHash f) ≠ s.lastFrameHash →
      (handleNewFrame f s).pendingFrames = s.pendingFrames ++ [f] ∧
      (handleNewFrame f s).coalesceTimer = true) ∧
    (s.pendingFrames ≠ [] → s.processingFrame = false →
      (processCoalescedFrames encode tProc nowDate nowPerf s).2 =
        [encode (s.pendingFrames.getLastD [])] ∧
      (processCoalescedFrames encode tProc nowDate nowPerf s).1.pendingFrames = [] ∧
      (processCoalescedFrames encode tProc nowDate nowPerf s).1.coalesceTimer = false) := by
  constructor
  · intro hne
    unfold handleNewFrame
    rw [if_neg hne]
    dsimp only
    constructor
    · split <;> rfl
    · split
      next hct => exact hct
      next => rfl
  · intro hpend hproc
    unfold processCoalescedFrames
    rw [if_neg (by simp [hpend, hproc])]
    dsimp only
    refine ⟨rfl, ?_, ?_⟩
    · rw [(adjustQualityIfNeeded_transient _ _).1, (updatePerformanceMetrics_transient _ _).1]
    · rw [(adjustQualityIfNeeded_transient _ _).2.1, (updatePerformanceMetrics_transient _ _).2.1]

/-- Witness for the amended C2, on the reachable two-frames-pending
state: processing publishes exactly the last pending frame `[1]` and
clears the pending list and the coalescing timer. -/
theorem C2_amended_witness :
    (handleNewFrame [0] startedState).pendingFrames = [[0]] ∧
    (processCoalescedFrames id 10 5000 200 pendingState).2 = [[1]] ∧
    (processCoalescedFrames id 10 5000 200 pendingState).1.pendingFrames = [] ∧
    (processCoalescedFrames id 10 5000 200 pendingState).1.coalesceTimer = false := by
  refine ⟨?_, ?_, ?_, ?_⟩
  · have h := ((C2_amended_thm startedState [0] id 10 5000 200).1 (by decide)).1
    simpa [startedState] using h
  · have h := ((C2_amended_thm pendingState [1] id 10 5000 200).2 (by decide) rfl).1
    simpa [pendingState] using h
  · exact ((C2_amended_thm pendingState [1] id 10 5000 200).2 (by decide) rfl).2.1
  · exact ((C2_amended_thm pendingState [1] id 10 5000 200).2 (by decide) rfl).2.2

/-! ## Stepwise evaluation of the subscribe / tick / unsubscribe trace -/

theorem handleNewFrame_startedState :
    handleNewFrame [0] startedState =
      { startedState with
        lastFrameHash := some (List.replicate 32 0)
        pendingFrames := [[0]]
        coalesceTimer := true } := by
  have h0 : calculateFrameHash [0] = List.replicate 32 0 := by decide
  simp [handleNewFrame, h0, startedState]

theorem captureTick_startedState : captureTick (some [0]) 100 startedState = tickedState := by
  unfold captureTick
  rw [if_neg (by norm_num [startedState])]
  rw [if_neg (by norm_num [startedState, MIN_FRAME_INTERVAL])]
  dsimp only
  have base : ({ startedState with tickTimerArmed := false } : ManagerState) = startedState := by
    simp [startedState]
  rw [base, handleNewFrame_startedState]
  simp [startedState, tickedState]

theorem unsubscribe_tickedState :
    unsubscribe 7 9000 tickedState =
      { tickedState with
        subscribers := []
        isCapturing := false
        coalesceTimer := false
        lastFrameHash := none
        pendingFrames := []
        frameProcessingTimes := []
        lastPerformanceCheck := 9000
        droppedFrames := 0
        framesSent := 0 } := by
  unfold unsubscribe
  rw [if_pos]
  · simp [stopCaptureLoop, resetPerformanceMetrics, tickedState, startedState]
  · simp [tickedState, startedState]

/-- C3: on the subscriber transition 0 to 1 the capture loop starts
(capturing flag set), a successful tick schedules the next capture
timeout, and on the transition 1 to 0 the loop stops: the coalescing
timer is cancelled and the transient frame and hash state is cleared —
but the scheduled capture-tick timeout is NOT cancelled and remains
armed after the second transition, contradicting the claim that no
timer stays armed.  (`stopCaptureLoop` clears only `captureInterval`,
which this revision of `startCaptureLoop` never assigns: the recursive
`setTimeout(captureFrame, _)` handle is stored nowhere.) -/
theorem C3_stop_leaves_tick_armed :
    (initialState 0 ⟨1920, 1080⟩).isCapturing = false ∧
    (subscribe 7 (initialState 0 ⟨1920, 1080⟩)).isCapturing = true ∧
    (captureTick (some [0]) 100 (subscribe 7 (initialState 0 ⟨1920, 1080⟩))).tickTimerArmed = true ∧
    (unsubscribe 7 9000 (captureTick (some [0]) 100
      (subscribe 7 (initialState 0 ⟨1920, 1080⟩)))).subscribers = [] ∧
    (unsubscribe 7 9000 (captureTick (some [0]) 100
      (subscribe 7 (initialState 0 ⟨1920, 1080⟩)))).isCapturing = false ∧
    (unsubscribe 7 9000 (captureTick (some [0]) 100
      (subscribe 7 (initialState 0 ⟨1920, 1080⟩)))).coalesceTimer = false ∧
    (unsubscribe 7 9000 (captureTick (some [0]) 100
      (subscribe 7 (initialState 0 ⟨1920, 1080⟩)))).lastFrameHash = none ∧
    (unsubscribe 7 9000 (captureTick (some [0]) 100
      (subscribe 7 (initialState 0 ⟨1920, 1080⟩)))).pendingFrames = [] ∧
    (unsubscribe 7 9000 (captureTick (some [0]) 100
      (subscribe 7 (initialState 0 ⟨1920, 1080⟩)))).tickTimerArmed = true := by
  rw [startedState_reachable, captureTick_startedState, unsubscribe_tickedState]
  exact ⟨rfl, rfl, rfl, rfl, rfl, rfl, rfl, rfl, rfl⟩

/-- C4: whenever the measured average processing time is above the
degrade threshold (`MIN_FRAME_INTERVAL`) and the fixed adjustment
interval has elapsed, an adjustment cycle steps jpegQuality down by 5
and width down by 128, each clamped to its configured minimum: the new
values equal the clamped steps, never fall below the minimums, strictly
decrease while above the minimums and stay pinned once a minimum is
reached; a cycle attempted before the interval has elapsed changes
nothing (adjustments happen at most once per interval). -/
theorem C4_adaptive_degrade (nowDate : Nat) (s : ManagerState) :
    (nowDate - s.lastPerformanceCheck < PERFORMANCE_CHECK_INTERVAL →
      adjustQualityIfNeeded nowDate s = s) ∧
    (¬(nowDate - s.lastPerformanceCheck < PERFORMANCE_CHECK_INTERVAL) →
      getAverageProcessingTime s > MIN_FRAME_INTERVAL →
      (adjustQualityIfNeeded nowDate s).quality.jpegQuality =
        max MIN_QUALITY (s.quality.jpegQuality - 5) ∧
      (adjustQualityIfNeeded nowDate s).quality.width =
        max MIN_WIDTH (s.quality.width - 128) ∧
      MIN_QUALITY ≤ (adjustQualityIfNeeded nowDate s).quality.jpegQuality ∧
      MIN_WIDTH ≤ (adjustQualityIfNeeded nowDate s).quality.width ∧
      (MIN_QUALITY ≤ s.quality.jpegQuality →
        (adjustQualityIfNeeded nowDate s).quality.jpegQuality ≤ s.quality.jpegQuality) ∧
      (MIN_QUALITY < s.quality.jpegQuality →
        (adjustQualityIfNeeded nowDate s).quality.jpegQuality < s.quality.jpegQuality) ∧
      (s.quality.jpegQuality = MIN_QUALITY →
        (adjustQualityIfNeeded nowDate s).quality.jpegQuality = MIN_QUALITY) ∧
      (MIN_WIDTH ≤ s.quality.width →
        (adjustQualityIfNeeded nowDate s).quality.width ≤ s.quality.width) ∧
      (MIN_WIDTH < s.quality.width →
        (adjustQualityIfNeeded nowDate s).quality.width < s.quality.width) ∧
      (s.quality.width = MIN_WIDTH →
        (adjustQualityIfNeeded nowDate s).quality.width = MIN_WIDTH)) := by
  constructor
  · intro hInt
    unfold adjustQualityIfNeeded
    rw [if_pos hInt]
  · intro hInt havg
    have heq :
        (adjustQualityIfNeeded nowDate s).quality.jpegQuality =
          max MIN_QUALITY (s.quality.jpegQuality - 5) ∧
        (adjustQualityIfNeeded nowDate s).quality.width =
          max MIN_WIDTH (s.quality.width - 128) := by
      unfold adjustQualityIfNeeded
      rw [if_neg hInt]
      dsimp only
      rw [decide_eq_true havg]
      simp only [Bool.or_true, if_true]
      constructor <;> first | rfl | trivial
    obtain ⟨hq, hw⟩ := heq
    rw [hq, hw]
    refine ⟨rfl, rfl, le_max_left _ _, le_max_left _ _, ?_, ?_, ?_, ?_, ?_, ?_⟩
    · intro hge
      exact max_le hge (by linarith)
    · intro hgt
      exact max_lt_iff.mpr ⟨hgt, by linarith⟩
    · intro he
      rw [he]
      exact max_eq_left (by linarith)
    · intro hge
      exact max_le hge (by linarith)
    · intro hgt
      exact max_lt_iff.mpr ⟨hgt, by linarith⟩
    · intro he
      rw [he]
      exact max_eq_left (by linarith)

/-- Witness for C4: with one 40 ms sample recorded (average 40 ms > 33
ms) and the adjustment due, the defaults degrade from quality 85 /
width 1440 to 80 / 1312; an attempt only 1000 ms after the previous
check is a no-op. -/
theorem C4_adaptive_degrade_witness :
    (adjustQualityIfNeeded 2000 degradeState).quality.jpegQuality = 80 ∧
    (adjustQualityIfNeeded 2000 degradeState).quality.width = 1312 ∧
    adjustQualityIfNeeded 1000 degradeState = degradeState := by
  have hInt : ¬(2000 - degradeState.lastPerformanceCheck < PERFORMANCE_CHECK_INTERVAL) := by
    norm_num [degradeState, startedState, PERFORMANCE_CHECK_INTERVAL]
  have havg : getAverageProcessingTime degradeState > MIN_FRAME_INTERVAL := by
    norm_num [getAverageProcessingTime, degradeState, startedState, MIN_FRAME_INTERVAL]
  obtain ⟨hq, hw, -⟩ := (C4_adaptive_degrade 2000 degradeState).2 hInt havg
  refine ⟨?_, ?_, ?_⟩
  · rw [hq]
    norm_num [degradeState, startedState, defaultQuality, MIN_QUALITY]
  · rw [hw]
    norm_num [degradeState, startedState, defaultQuality, MIN_WIDTH]
  · exact (C4_adaptive_degrade 1000 degradeState).1
      (by norm_num [degradeState, startedState, PERFORMANCE_CHECK_INTERVAL])

/-! ## Helper lemmas: single steps of the frame pipeline -/

theorem handleNewFrame_nondup (f : Frame) (s : ManagerState)
    (h : some (calculateFrameHash f) ≠ s.lastFrameHash) :
    (handleNewFrame f s).pendingFrames = s.pendingFrames ++ [f] ∧
    (handleNewFrame f s).lastFrameHash = some (calculateFrameHash f) ∧
    (handleNewFrame f s).processingFrame = s.processingFrame ∧
    (handleNewFrame f s).droppedFrames = s.droppedFrames := by
  unfold handleNewFrame
  rw [if_neg h]
  dsimp only
  refine ⟨?_, ?_, ?_, ?_⟩ <;> (split <;> rfl)

theorem handleNewFrame_dup (f : Frame) (s : ManagerState)
    (h : some (calculateFrameHash f) = s.lastFrameHash) :
    handleNewFrame f s = { s with droppedFrames := s.droppedFrames + 1 } := by
  unfold handleNewFrame
  rw [if_pos h]

theorem processCoalescedFrames_run (encode : Frame → Frame) (tProc : Rat)
    (nowDate : Nat) (nowPerf : Rat) (s : ManagerState)
    (hpend : s.pendingFrames ≠ []) (hproc : s.processingFrame = false) :
    (processCoalescedFrames encode tProc nowDate nowPerf s).2 =
      [encode (s.pendingFrames.getLastD [])] ∧
    (processCoalescedFrames encode tProc nowDate nowPerf s).1.pendingFrames = [] ∧
    (processCoalescedFrames encode tProc nowDate nowPerf s).1.coalesceTimer = false ∧
    (processCoalescedFrames encode tProc nowDate nowPerf s).1.lastFrameHash = s.lastFrameHash ∧
    (processCoalescedFrames encode tProc nowDate nowPerf s).1.processingFrame = false ∧
    (processCoalescedFrames encode tProc nowDate nowPerf s).1.droppedFrames = s.droppedFrames := by
  unfold processCoalescedFrames
  rw [if_neg (by simp [hpend, hproc])]
  dsimp only
  refine ⟨rfl, ?_, ?_, ?_, rfl, ?_⟩
  · rw [(adjustQualityIfNeeded_transient _ _).1, (updatePerformanceMetrics_transient _ _).1]
  · rw [(adjustQualityIfNeeded_transient _ _).2.1, (updatePerformanceMetrics_transient _ _).2.1]
  · rw [(adjustQualityIfNeeded_transient _ _).2.2.1, (updatePerformanceMetrics_transient _ _).2.2.1]
  · rw [(adjustQualityIfNeeded_transient _ _).2.2.2.2.1,
      (updatePerformanceMetrics_transient _ _).2.2.2.2.1]

/-- C5: for a pair of consecutive captured frames whose 32 sampled
bytes are identical (equal hashes), the first is published and then the
second is dropped before any encoding: the processing step emits
exactly one publish broadcast (carrying the encoded first frame, handed
to every subscriber callback once), and handling the second frame only
increments `droppedFrames` — it never enters the pending queue. -/
theorem C5_duplicate_suppressed (s : ManagerState) (f1 f2 : Frame)
    (encode : Frame → Frame) (tProc : Rat) (nowDate : Nat) (nowPerf : Rat)
    (hfresh : some (calculateFrameHash f1) ≠ s.lastFrameHash)
    (hpend : s.pendingFrames = []) (hproc : s.processingFrame = false)
    (hsame : calculateFrameHash f2 = calculateFrameHash f1) :
    (processCoalescedFrames encode tProc nowDate nowPerf (handleNewFrame f1 s)).2 =
      [encode f1] ∧
    handleNewFrame f2 (processCoalescedFrames encode tProc nowDate nowPerf
        (handleNewFrame f1 s)).1 =
      { (processCoalescedFrames encode tProc nowDate nowPerf (handleNewFrame f1 s)).1 with
        droppedFrames := (processCoalescedFrames encode tProc nowDate nowPerf
          (handleNewFrame f1 s)).1.droppedFrames + 1 } ∧
    (handleNewFrame f2 (processCoalescedFrames encode tProc nowDate nowPerf
        (handleNewFrame f1 s)).1).pendingFrames = [] := by
  obtain ⟨hp1, hh1, hpf1, hd1⟩ := handleNewFrame_nondup f1 s hfresh
  have hpend1 : (handleNewFrame f1 s).pendingFrames = [f1] := by rw [hp1, hpend]; rfl
  have hne1 : (handleNewFrame f1 s).pendingFrames ≠ [] := by rw [hpend1]; simp
  have hpf1f : (handleNewFrame f1 s).processingFrame = false := by rw [hpf1, hproc]
  obtain ⟨hout, hp2, hct2, hh2, hproc2, hd2⟩ :=
    processCoalescedFrames_run encode tProc nowDate nowPerf _ hne1 hpf1f
  have hdup : some (calculateFrameHash f2) =
      (processCoalescedFrames encode tProc nowDate nowPerf (handleNewFrame f1 s)).1.lastFrameHash := by
    rw [hh2, hh1, hsame]
  refine ⟨?_, handleNewFrame_dup _ _ hdup, ?_⟩
  · rw [hout, hpend1]
    rfl
  · rw [handleNewFrame_dup _ _ hdup]
    exact hp2

/-- Witness for C5: the frames `[5]` and `[5, 9]` are different buffers
with identical sampled bytes; the pair yields exactly one publish and
the second frame is counted dropped and never queued. -/
theorem C5_duplicate_suppressed_witness :
    (processCoalescedFrames id 10 5000 200 (handleNewFrame [5] startedState)).2 = [[5]] ∧
    (handleNewFrame [5, 9] (processCoalescedFrames id 10 5000 200
        (handleNewFrame [5] startedState)).1).droppedFrames =
      (processCoalescedFrames id 10 5000 200
        (handleNewFrame [5] startedState)).1.droppedFrames + 1 ∧
    (handleNewFrame [5, 9] (processCoalescedFrames id 10 5000 200
        (handleNewFrame [5] startedState)).1).pendingFrames = [] := by
  have h := C5_duplicate_suppressed startedState [5] [5, 9] id 10 5000 200
    (by decide) rfl rfl (by decide)
  exact ⟨h.1, by rw [h.2.1], h.2.2⟩

/-- C6 counterexample: the claim's skip threshold is 0.8 x framePeriod
(17.78 ms at the default 45 fps), but the code skips with the flat
`MIN_FRAME_INTERVAL` of 33 ms: a tick 30 ms after the last publish is
dropped (droppedFrames incremented, nothing captured) even though the
claim says it proceeds; and two accepted ticks queue two raw frames,
refuting the never-more-than-one-queued part. -/
theorem C6_counterexample :
    (captureTick (some [0]) 30 startedState).droppedFrames = startedState.droppedFrames + 1 ∧
    (captureTick (some [0]) 30 startedState).pendingFrames = startedState.pendingFrames ∧
    startedState.processingFrame = false ∧
    ¬((30 : Rat) - startedState.lastFrameSentTime <
        0.8 * (1000 / startedState.quality.fps)) ∧
    (captureTick (some [1]) 200 (captureTick (some [0]) 100 startedState)).pendingFrames =
      [[0], [1]] := by
  have hskip : captureTick (some [0]) 30 startedState =
      { startedState with tickTimerArmed := false, droppedFrames := 1 } := by
    unfold captureTick
    rw [if_neg (by norm_num [startedState])]
    rw [if_pos (by norm_num [startedState, MIN_FRAME_INTERVAL])]
    rfl
  have h1 : calculateFrameHash [1] = List.replicate 32 1 := by decide
  have hsecond : captureTick (some [1]) 200 tickedState =
      { tickedState with
        lastFrameHash := some (List.replicate 32 1)
        pendingFrames := [[0], [1]] } := by
    unfold captureTick
    rw [if_neg (by norm_num [tickedState, startedState])]
    rw [if_neg (by norm_num [tickedState, startedState, MIN_FRAME_INTERVAL])]
    dsimp only
    simp [handleNewFrame, h1, tickedState, startedState]
  rw [hskip, captureTick_startedState, hsecond]
  refine ⟨rfl, rfl, rfl, ?_, rfl⟩
  norm_num [startedState, defaultQuality]

/-- C6 (amended): on every capture tick while capturing, if a frame is
mid-processing or less than the flat `MIN_FRAME_INTERVAL` (33 ms) has
elapsed since the last frame was published, the tick performs no
capture and only increments `droppedFrames` (and, skipping the
`setTimeout` at the end, schedules no next tick); an accepted tick
hands the single captured frame to duplicate detection, which either
drops it (pending queue unchanged) or appends exactly that one frame
to the pending queue. -/
theorem C6_amended_thm (raw : Frame) (nowPerf : Rat) (s : ManagerState)
    (hc : s.isCapturing = true) :
    (s.processingFrame = true ∨ nowPerf - s.lastFrameSentTime < MIN_FRAME_INTERVAL →
      captureTick (some raw) nowPerf s =
        { s with tickTimerArmed := false, droppedFrames := s.droppedFrames + 1 }) ∧
    (s.processingFrame = false →
      ¬(nowPerf - s.lastFrameSentTime < MIN_FRAME_INTERVAL) →
      ((captureTick (some raw) nowPerf s).pendingFrames = s.pendingFrames ∧
        (captureTick (some raw) nowPerf s).droppedFrames = s.droppedFrames + 1) ∨
      ((captureTick (some raw) nowPerf s).pendingFrames = s.pendingFrames ++ [raw] ∧
        (captureTick (some raw) nowPerf s).droppedFrames = s.droppedFrames)) := by
  constructor
  · intro hskip
    unfold captureTick
    rw [if_neg (by simp [hc])]
    rw [if_pos (by simpa using hskip)]
  · intro hpf htime
    unfold captureTick
    rw [if_neg (by simp [hc])]
    rw [if_neg (by simpa [hpf] using htime)]
    dsimp only
    by_cases hd : some (calculateFrameHash raw) =
        ({ s with tickTimerArmed := false } : ManagerState).lastFrameHash
    · left
      rw [handleNewFrame_dup _ _ hd]
      exact ⟨rfl, rfl⟩
    · right
      obtain ⟨hp, -, -, hdrop⟩ := handleNewFrame_nondup raw _ hd
      exact ⟨hp, hdrop⟩

/-- Witness for the amended C6: a tick 10 ms after the last publish is
dropped without capture; a tick 100 ms after it is accepted and queues
exactly the one captured frame. -/
theorem C6_amended_witness :
    captureTick (some [2]) 10 startedState =
      { startedState with
        tickTimerArmed := false
        droppedFrames := startedState.droppedFrames + 1 } ∧
    (((captureTick (some [0]) 100 startedState).pendingFrames = startedState.pendingFrames ∧
      (captureTick (some [0]) 100 startedState).droppedFrames =
        startedState.droppedFrames + 1) ∨
     ((captureTick (some [0]) 100 startedState).pendingFrames =
        startedState.pendingFrames ++ [[0]] ∧
      (captureTick (some [0]) 100 startedState).droppedFrames = startedState.droppedFrames)) := by
  constructor
  · exact (C6_amended_thm [2] 10 startedState rfl).1
      (Or.inr (by norm_num [startedState, MIN_FRAME_INTERVAL]))
  · exact (C6_amended_thm [0] 100 startedState rfl).2 rfl
      (by norm_num [startedState, MIN_FRAME_INTERVAL])

/-- C7: for every inbound mouse event, a pointer move to
(floor((x / screenWidth) x hostWidth), floor((y / screenHeight) x
hostHeight)) is always forwarded first; "down"/"up" additionally
forward a left-button toggle of that state; "move" forwards only the
coordinate move; and x=960, y=540 in a 1920x1080 client viewport maps
to host (960, 540) on a 1920x1080 host. -/
theorem C7_mouse_mapping (screen : ScreenSize) (x y sw sh : Rat) :
    handleMouseEvent screen x y "move" sw sh =
      [RobotAction.moveMouse ⌊x / sw * screen.width⌋ ⌊y / sh * screen.height⌋] ∧
    handleMouseEvent screen x y "down" sw sh =
      [RobotAction.moveMouse ⌊x / sw * screen.width⌋ ⌊y / sh * screen.height⌋,
       RobotAction.mouseToggle "down" "left"] ∧
    handleMouseEvent screen x y "up" sw sh =
      [RobotAction.moveMouse ⌊x / sw * screen.width⌋ ⌊y / sh * screen.height⌋,
       RobotAction.mouseToggle "up" "left"] ∧
    handleMouseEvent ⟨1920, 1080⟩ 960 540 "move" 1920 1080 =
      [RobotAction.moveMouse 960 540] := by
  refine ⟨?_, ?_, ?_, ?_⟩
  · unfold handleMouseEvent
    rw [if_neg (by decide), if_neg (by decide)]
  · unfold handleMouseEvent
    rw [if_pos rfl]
  · unfold handleMouseEvent
    rw [if_neg (by decide), if_pos rfl]
  · unfold handleMouseEvent
    rw [if_neg (by decide), if_neg (by decide)]
    norm_num

/-- C8: an inbound binary payload that does not parse as a recognised
JSON message type is routed to the external command executor exactly
when its text case-insensitively equals a command-registry key or
case-insensitively starts with one of the fixed natural-language
command phrases, and to file upload otherwise; in particular a payload
equal to a known registry command in any letter case always routes to
command execution, never to file storage. -/
theorem C8_command_routing (commandKeys : List String) (text : String) :
    ((∃ k ∈ commandKeys, toLowerString k = toLowerString text) →
      handleUnrecognizedPayload commandKeys text = BufferRoute.commandExecution) ∧
    ((∃ p ∈ commandPhrases, startsWithString (toLowerString text) p = true) →
      handleUnrecognizedPayload commandKeys text = BufferRoute.commandExecution) ∧
    ((∀ k ∈ commandKeys, toLowerString k ≠ toLowerString text) →
      (∀ p ∈ commandPhrases, startsWithString (toLowerString text) p = false) →
      handleUnrecognizedPayload commandKeys text = BufferRoute.fileUpload) := by
  unfold handleUnrecognizedPayload
  refine ⟨?_, ?_, ?_⟩
  · rintro ⟨k, hk, he⟩
    rw [if_pos]
    unfold isSupportedCommand
    rw [Bool.or_eq_true]
    exact Or.inl (List.elem_iff.mpr (List.mem_map.mpr ⟨k, hk, he⟩))
  · rintro ⟨p, hp, he⟩
    rw [if_pos]
    unfold isSupportedCommand
    rw [Bool.or_eq_true]
    exact Or.inr (List.any_eq_true.mpr ⟨p, hp, he⟩)
  · intro hk hp
    rw [if_neg]
    unfold isSupportedCommand
    rw [Bool.or_eq_true]
    rintro (hc | hc)
    · obtain ⟨k, hkm, he⟩ := List.mem_map.mp (List.elem_iff.mp hc)
      exact hk k hkm he
    · obtain ⟨p, hpm, he⟩ := List.any_eq_true.mp hc
      rw [hp p hpm] at he
      exact Bool.false_ne_true he

/-- Witness for C8: against a registry containing "openFile", the
payload "OPENFILE" routes to command execution, the free-text phrase
"go TO line 7" routes to command execution, and "some random bytes"
falls through to file upload. -/
theorem C8_command_routing_witness :
    handleUnrecognizedPayload ["openFile"] "OPENFILE" = BufferRoute.commandExecution ∧
    handleUnrecognizedPayload ["openFile"] "go TO line 7" = BufferRoute.commandExecution ∧
    handleUnrecognizedPayload ["openFile"] "some random bytes" = BufferRoute.fileUpload := by
  refine ⟨?_, ?_, ?_⟩
  · exact (C8_command_routing ["openFile"] "OPENFILE").1 ⟨"openFile", by simp, by decide⟩
  · exact (C8_command_routing ["openFile"] "go TO line 7").2.1
      ⟨"go to line", by decide, by decide⟩
  · exact (C8_command_routing ["openFile"] "some random bytes").2.2 (by decide) (by decide)


/-! ## Helper lemmas: stopping the loop and removing subscribers -/
theorem stopCaptureLoop_fields (n : Nat) (s : ManagerState) :
    (stopCaptureLoop n s).subscribers = s.subscribers ∧
    (stopCaptureLoop n s).isCapturing = false ∧
    (stopCaptureLoop n s).captureInterval = none ∧
    (stopCaptureLoop n s).coalesceTimer = false ∧
    (stopCaptureLoop n s).tickTimerArmed = s.tickTimerArmed ∧
    (stopCaptureLoop n s).lastFrameHash = none ∧
    (stopCaptureLoop n s).pendingFrames = [] ∧
    (stopCaptureLoop n s).processingFrame = s.processingFrame ∧
    (stopCaptureLoop n s).droppedFrames = 0 ∧
    (stopCaptureLoop n s).framesSent = 0 ∧
    (stopCaptureLoop n s).frameProcessingTimes = [] := by
  unfold stopCaptureLoop resetPerformanceMetrics
  dsimp only
  split <;> (split <;> simp_all)

theorem filter_ne_idem (l : List Nat) (cb : Nat) :
    (l.filter (fun c => c ≠ cb)).filter (fun c => c ≠ cb) = l.filter (fun c => c ≠ cb) := by
  rw [List.filter_filter]
  simp

theorem unsubscribe_eq_stop (cb n : Nat) (s : ManagerState)
    (h : s.subscribers.filter (fun c => c ≠ cb) = []) :
    unsubscribe cb n s =
      stopCaptureLoop n { s with subscribers := s.subscribers.filter (fun c => c ≠ cb) } := by
  unfold unsubscribe
  rw [if_pos h]

theorem unsubscribe_eq_keep (cb n : Nat) (s : ManagerState)
    (h : s.subscribers.filter (fun c => c ≠ cb) ≠ []) :
    unsubscribe cb n s = { s with subscribers := s.subscribers.filter (fun c => c ≠ cb) } := by
  unfold unsubscribe
  rw [if_neg h]

/-- C9: calling the unsubscribe closure returned by subscribe a second
time, right after the first call, is an observable no-op — the
subscriber list, the capturing flag, both timer slots (capture
interval, coalescing timer, pending tick timeout), the frame and hash
state and the performance counters are all left exactly as the first
call left them (only the reset timestamp taken from Date.now inside
the metrics reset can differ). -/
theorem C9_unsubscribe_idempotent (cb n1 n2 : Nat) (s : ManagerState) :
    (unsubscribe cb n2 (unsubscribe cb n1 s)).subscribers =
      (unsubscribe cb n1 s).subscribers ∧
    (unsubscribe cb n2 (unsubscribe cb n1 s)).isCapturing =
      (unsubscribe cb n1 s).isCapturing ∧
    (unsubscribe cb n2 (unsubscribe cb n1 s)).captureInterval =
      (unsubscribe cb n1 s).captureInterval ∧
    (unsubscribe cb n2 (unsubscribe cb n1 s)).coalesceTimer =
      (unsubscribe cb n1 s).coalesceTimer ∧
    (unsubscribe cb n2 (unsubscribe cb n1 s)).tickTimerArmed =
      (unsubscribe cb n1 s).tickTimerArmed ∧
    (unsubscribe cb n2 (unsubscribe cb n1 s)).lastFrameHash =
      (unsubscribe cb n1 s).lastFrameHash ∧
    (unsubscribe cb n2 (unsubscribe cb n1 s)).pendingFrames =
      (unsubscribe cb n1 s).pendingFrames ∧
    (unsubscribe cb n2 (unsubscribe cb n1 s)).processingFrame =
      (unsubscribe cb n1 s).processingFrame ∧
    (unsubscribe cb n2 (unsubscribe cb n1 s)).droppedFrames =
      (unsubscribe cb n1 s).droppedFrames ∧
    (unsubscribe cb n2 (unsubscribe cb n1 s)).framesSent =
      (unsubscribe cb n1 s).framesSent ∧
    (unsubscribe cb n2 (unsubscribe cb n1 s)).frameProcessingTimes =
      (unsubscribe cb n1 s).frameProcessingTimes := by
  by_cases hl : s.subscribers.filter (fun c => c ≠ cb) = []
  · have e1 := unsubscribe_eq_stop cb n1 s hl
    obtain ⟨a1, b1, c1, d1, e1f, f1, g1, h1, i1, j1, k1⟩ :=
      stopCaptureLoop_fields n1 { s with subscribers := s.subscribers.filter (fun c => c ≠ cb) }
    have hsub1 : (unsubscribe cb n1 s).subscribers = [] := by
      rw [e1]
      exact a1.trans hl
    have hl2 : (unsubscribe cb n1 s).subscribers.filter (fun c => c ≠ cb) = [] := by
      rw [hsub1]
      rfl
    have e2 := unsubscribe_eq_stop cb n2 (unsubscribe cb n1 s) hl2
    obtain ⟨a2, b2, c2, d2, e2f, f2, g2, h2, i2, j2, k2⟩ :=
      stopCaptureLoop_fields n2 { unsubscribe cb n1 s with
        subscribers := (unsubscribe cb n1 s).subscribers.filter (fun c => c ≠ cb) }
    have s1c : (unsubscribe cb n1 s).isCapturing = false := by rw [e1]; exact b1
    have s1ci : (unsubscribe cb n1 s).captureInterval = none := by rw [e1]; exact c1
    have s1ct : (unsubscribe cb n1 s).coalesceTimer = false := by rw [e1]; exact d1
    have s1h : (unsubscribe cb n1 s).lastFrameHash = none := by rw [e1]; exact f1
    have s1p : (unsubscribe cb n1 s).pendingFrames = [] := by rw [e1]; exact g1
    have s1d : (unsubscribe cb n1 s).droppedFrames = 0 := by rw [e1]; exact i1
    have s1f : (unsubscribe cb n1 s).framesSent = 0 := by rw [e1]; exact j1
    have s1t : (unsubscribe cb n1 s).frameProcessingTimes = [] := by rw [e1]; exact k1
    rw [e2]
    refine ⟨?_, ?_, ?_, ?_, ?_, ?_, ?_, ?_, ?_, ?_, ?_⟩
    · exact (a2.trans hl2).trans hsub1.symm
    · rw [b2, s1c]
    · rw [c2, s1ci]
    · rw [d2, s1ct]
    · exact e2f
    · rw [f2, s1h]
    · rw [g2, s1p]
    · exact h2
    · rw [i2, s1d]
    · rw [j2, s1f]
    · rw [k2, s1t]
  · have e1 := unsubscribe_eq_keep cb n1 s hl
    have hsub1 : (unsubscribe cb n1 s).subscribers =
        s.subscribers.filter (fun c => c ≠ cb) := by
      rw [e1]
    have hidem : (unsubscribe cb n1 s).subscribers.filter (fun c => c ≠ cb) =
        (unsubscribe cb n1 s).subscribers := by
      rw [hsub1, filter_ne_idem]
    have e2 := unsubscribe_eq_keep cb n2 (unsubscribe cb n1 s)
      (by rw [hidem, hsub1]; exact hl)
    rw [e2, hidem]
    exact ⟨rfl, rfl, rfl, rfl, rfl, rfl, rfl, rfl, rfl, rfl, rfl⟩

/-- C10: the frame hash is total with no out-of-range read for buffers
of at least 32 bytes (every sampled index `offset + i * step` is
strictly below the length); for any buffer shorter than 32 bytes the
step is zero so all 32 samples read index 0 (the empty buffer reads
the JS `undefined`-to-0 coercion), hence two frames shorter than 32
bytes agreeing on their first byte hash identically, and a frame whose
hash equals the recorded previous hash is suppressed as a duplicate:
`handleNewFrame` only increments `droppedFrames`. -/
theorem C10_hash_short_buffers (b1 b2 : Frame) (s : ManagerState) :
    (32 ≤ b1.length → ∀ i, i < 32 →
      b1.length / 32 / 2 + i * (b1.length / 32) < b1.length) ∧
    (b1.length < 32 → calculateFrameHash b1 = List.replicate 32 (b1.getD 0 0)) ∧
    (b1.length < 32 → b2.length < 32 → b1.getD 0 0 = b2.getD 0 0 →
      calculateFrameHash b1 = calculateFrameHash b2) ∧
    (calculateFrameHash b2 = calculateFrameHash b1 →
      s.lastFrameHash = some (calculateFrameHash b1) →
      handleNewFrame b2 s = { s with droppedFrames := s.droppedFrames + 1 }) := by
  have key : ∀ b : Frame, b.length < 32 →
      calculateFrameHash b = List.replicate 32 (b.getD 0 0) := by
    intro b hb
    have hstep : b.length / 32 = 0 := Nat.div_eq_of_lt hb
    unfold calculateFrameHash
    dsimp only
    rw [hstep]
    simp
  refine ⟨?_, key b1, ?_, ?_⟩
  · intro h32 i hi
    have h1 : 1 ≤ b1.length / 32 := (Nat.one_le_div_iff (by norm_num)).mpr h32
    have h2 : b1.length / 32 * 32 ≤ b1.length := Nat.div_mul_le_self _ _
    have h3 : b1.length / 32 / 2 < b1.length / 32 := Nat.div_lt_self (by omega) (by norm_num)
    have h4 : i * (b1.length / 32) ≤ 31 * (b1.length / 32) :=
      Nat.mul_le_mul_right _ (by omega)
    omega
  · intro hb1 hb2 hbyte
    rw [key b1 hb1, key b2 hb2, hbyte]
  · intro hsame hlast
    apply handleNewFrame_dup
    rw [hsame, hlast]

/-- Witness for C10: `[7]` and `[7, 8, 9]` are both shorter than 32
bytes and share their first byte, so they hash identically and the
second is suppressed as a duplicate; and for a 40-byte buffer every
sampled index (the largest is the one at i = 31) stays in range. -/
theorem C10_hash_short_buffers_witness :
    calculateFrameHash [7] = List.replicate 32 7 ∧
    calculateFrameHash [7] = calculateFrameHash [7, 8, 9] ∧
    handleNewFrame [7, 8, 9] seenState =
      { seenState with droppedFrames := seenState.droppedFrames + 1 } ∧
    (List.replicate 40 3 : Frame).length / 32 / 2 +
        31 * ((List.replicate 40 3 : Frame).length / 32) <
      (List.replicate 40 3 : Frame).length := by
  refine ⟨?_, ?_, ?_, ?_⟩
  · have h := (C10_hash_short_buffers [7] [7, 8, 9] seenState).2.1 (by norm_num)
    simpa using h
  · exact (C10_hash_short_buffers [7] [7, 8, 9] seenState).2.2.1 (by norm_num) (by norm_num) rfl
  · exact (C10_hash_short_buffers [7] [7, 8, 9] seenState).2.2.2 (by decide) (by decide)
  · exact (C10_hash_short_buffers (List.replicate 40 3) [] seenState).1 (by simp) 31 (by norm_num)
